import Mathlib

/-!
Verification of the database-VM lifecycle gate of the Open Notebook frontend.

The development shallowly embeds the subsystem formed by
- src/frontend/src/lib/hooks/use-db-vm.ts  (status caching and polling),
- the DbVmGate controller (the later, defensive revision, the one using
  isValidating and showProgress), together with the few points where the
  earlier revision in src/frontend/src/components/db/DbVmGate.tsx differs.

JavaScript numbers are modelled as rationals, epoch-millisecond timestamps
as integers, and the two localStorage slots as explicit fields of the
controller state.  Effects of the React component are folded into the
event step function at the granularity of one commit: an event applies the
state updates of its handler together with the effects those updates fire.
-/

namespace DbVm

/-- The config object of a status response (interface DbVmStatusResponse in
src/frontend/src/lib/api/infra.ts). -/
structure VmConfig where
  project : String
  zone : String
  name : String
  estimatedStartSeconds : Option ℚ
deriving Repr, DecidableEq

/-- A VM status snapshot as returned by GET /infra/db-vm/status.
The checkedAt field holds the epoch milliseconds of the snapshot, the value
the code obtains as new Date(parsed.checkedAt).getTime().  The config field
is optional because every reader accesses it with optional chaining. -/
structure DbVmStatusResponse where
  status : String
  rawStatus : String
  checkedAt : Int
  config : Option VmConfig
deriving Repr, DecidableEq

/-- MAX_CACHE_AGE_MS from use-db-vm.ts: one minute, after which a cached
running status forces a live check. -/
def MAX_CACHE_AGE_MS : Int := 60000

/-- getCachedStatus from use-db-vm.ts.  The first argument is the
react-query in-memory cache entry; the second is the content of the
localStorage key db-vm-last-status, where none models an absent key,
Except.error models a stored string on which JSON.parse throws (the catch
block swallows the error and the function falls through to undefined), and
Except.ok models a string parsing to a snapshot.  The now argument is
Date.now(). -/
def getCachedStatus (rqCache : Option DbVmStatusResponse)
    (stored : Option (Except String DbVmStatusResponse)) (now : Int) :
    Option DbVmStatusResponse :=
  match rqCache with
  | some cached => some cached
  | none =>
    match stored with
    | none => none
    | some (Except.error _) => none
    | some (Except.ok parsed) =>
      let ageMs : Int := now - parsed.checkedAt
      if parsed.status = "running" ∧ ageMs > MAX_CACHE_AGE_MS then
        none
      else
        some parsed

/-- The refetchInterval callback of the status query in use-db-vm.ts.
The argument is query.state.data?.status; the JavaScript guard is
if (!status || status === "running") return false, where !status is true
both for an undefined status (no data yet) and for the empty string.
A result of none models returning false (no polling). -/
def refetchInterval (lastStatus : Option String) : Option Nat :=
  match lastStatus with
  | none => none
  | some s => if s = "" ∨ s = "running" then none else some 10000

/-- The state of the DbVmGate controller.  data, isFetching and
isFetchedAfterMount mirror the fields read from useDbVmStatus; the Bool
flags, progress, startTimestamp and startError are the useState cells of
the component; storedStartTs is the content of the localStorage key
db-vm-start-ts, where none is an absent key, some none a stored string
whose Number conversion is NaN, and some (some n) a stored string
converting to the number n. -/
structure GateState where
  data : Option DbVmStatusResponse
  isFetching : Bool
  isFetchedAfterMount : Bool
  isStarting : Bool
  isStopping : Bool
  isSuspendingLocal : Bool
  progress : ℚ
  startTimestamp : Option Int
  startError : Option String
  storedStartTs : Option (Option Int)
deriving Repr, DecidableEq

namespace GateState

/-- const status = data?.status ?? "unknown". -/
def status (st : GateState) : String :=
  match st.data with
  | some d => d.status
  | none => "unknown"

/-- const estimatedSeconds = data?.config?.estimatedStartSeconds ?? 90. -/
def estimatedSeconds (st : GateState) : ℚ :=
  match st.data with
  | some d =>
    match d.config with
    | some c =>
      match c.estimatedStartSeconds with
      | some q => q
      | none => 90
    | none => 90
  | none => 90

/-- The isLoading flag of the react-query result: the query is doing its
first fetch and has no data yet. -/
def isLoading (st : GateState) : Bool :=
  st.data.isNone && st.isFetching

/-- const isValidating = isLoading || isFetching || !isFetchedAfterMount. -/
def isValidating (st : GateState) : Bool :=
  isLoading st || st.isFetching || !st.isFetchedAfterMount

/-- const isSuspending = status === "suspending" || isSuspendingLocal. -/
def isSuspending (st : GateState) : Bool :=
  status st == "suspending" || st.isSuspendingLocal

/-- const isStartingFromServer = status === "starting". -/
def isStartingFromServer (st : GateState) : Bool :=
  status st == "starting"

/-- const isCheckingRunning = isValidating && status === "running". -/
def isCheckingRunning (st : GateState) : Bool :=
  isValidating st && status st == "running"

/-- const showProgress = isStarting && !!startTimestamp; the progress bar
markup is rendered exactly when this holds. -/
def showProgress (st : GateState) : Bool :=
  st.isStarting && st.startTimestamp.isSome

/-- The gate condition of the later revision:
isValidating || status !== "running" || isStarting || isStopping ||
isSuspending. -/
def shouldGate (st : GateState) : Bool :=
  isValidating st || status st != "running" || st.isStarting ||
    st.isStopping || isSuspending st

/-- The gate formula exactly as the specification states it:
shouldGate = isValidating OR status != running OR starting OR stopping.
Kept separate from the definition read off the code so the two can be
compared. -/
def shouldGateSpec (st : GateState) : Bool :=
  isValidating st || status st != "running" || st.isStarting || st.isStopping

/-- Whether the blocking full-screen control surface is rendered: the
component renders children when gateDisabled, otherwise the blocking
screen when shouldGate. -/
def rendersBlocking (gateDisabled : Bool) (st : GateState) : Bool :=
  !gateDisabled && shouldGate st

/-- const startDisabled = isCheckingRunning || isStarting ||
isStartingFromServer || isStopping || isSuspending (later revision). -/
def startDisabled (st : GateState) : Bool :=
  isCheckingRunning st || st.isStarting || isStartingFromServer st ||
    st.isStopping || isSuspending st

/-- The startDisabled expression of the earlier revision in DbVmGate.tsx:
isStarting || isStartingFromServer || isStopping || isSuspending. -/
def startDisabledV1 (st : GateState) : Bool :=
  st.isStarting || isStartingFromServer st || st.isStopping || isSuspending st

/-- The headline label of the gate screen of the later revision, following
the nested conditional of the JSX. -/
def headline (st : GateState) : String :=
  if isValidating st then "Checking status..."
  else if status st == "running" then "Online"
  else if isSuspending st || st.isStopping then "Suspending..."
  else if st.isStarting || isStartingFromServer st then "Starting..."
  else "Offline"

end GateState

/-- The progress value computed by the 400ms interval:
Math.min(99, (elapsedMs / (estimatedSeconds * 1000)) * 100) with
elapsedMs = Date.now() - startTimestamp. -/
def progressPct (now startTs : Int) (estimatedSeconds : ℚ) : ℚ :=
  min 99 (((now - startTs : Int) : ℚ) / (estimatedSeconds * 1000) * 100)

/-- The events that drive the controller: fetch lifecycle of the status
query, the mount-time restore effect, the settlement of the start and stop
requests, and the 400ms progress tick. -/
inductive Event where
  | fetchStart : Event
  | fetchResolve : DbVmStatusResponse → Event
  | fetchReject : Event
  | mountRestore : Event
  | startClick : Int → Event
  | startOk : Event
  | startFail : Event
  | stopClick : Event
  | stopOk : Event
  | stopFail : Event
  | tick : Int → Event
deriving Repr, DecidableEq

/-- The persistence effect: if (startTimestamp && isStarting)
localStorage.setItem(STORAGE_KEY, startTimestamp.toString()).  Applied
whenever an event changes startTimestamp or isStarting. -/
def persistStartTs (st : GateState) : GateState :=
  match st.startTimestamp with
  | some ts => if st.isStarting then { st with storedStartTs := some (some ts) } else st
  | none => st

/-- The two status-driven effects of the component, run when a resolved
fetch updates data: on "running" set progress to 100, clear all three
transition flags and remove the persisted start timestamp; on "suspended"
or "stopped" clear the optimistic suspend flag and the stopping flag. -/
def applyStatusEffects (st : GateState) : GateState :=
  let st1 :=
    if st.status == "running" then
      { st with progress := 100, isStarting := false, isStopping := false,
                isSuspendingLocal := false, storedStartTs := none }
    else st
  if st1.status == "suspended" || st1.status == "stopped" then
    { st1 with isSuspendingLocal := false, isStopping := false }
  else st1

/-- One step of the controller.  Fetch events update the query fields and
run the status effects; mountRestore is the mount-only restore effect of
the later revision (it only resurrects a start this browser persisted);
startClick and stopClick are the synchronous beginnings of start() and
stop(), startOk, startFail, stopOk and stopFail their settlements; tick is
one firing of the 400ms progress interval, which is installed exactly when
showProgress holds. -/
def applyEvent (st : GateState) : Event → GateState
  | Event.fetchStart => { st with isFetching := true }
  | Event.fetchResolve d =>
      applyStatusEffects
        { st with data := some d, isFetching := false, isFetchedAfterMount := true }
  | Event.fetchReject => { st with isFetching := false, isFetchedAfterMount := true }
  | Event.mountRestore =>
      match st.storedStartTs with
      | some (some ts) =>
          persistStartTs { st with startTimestamp := some ts, isStarting := true }
      | some none => st
      | none => st
  | Event.startClick now =>
      persistStartTs
        { st with startError := none, isStarting := true, progress := 0,
                  startTimestamp := some now }
  | Event.startOk => st
  | Event.startFail =>
      { st with startError := some "Unable to start the database VM. Please try again.",
                isStarting := false }
  | Event.stopClick => { st with isStopping := true, isSuspendingLocal := true }
  | Event.stopOk => { st with isFetching := true }
  | Event.stopFail => { st with isStopping := false, isSuspendingLocal := false }
  | Event.tick now =>
      if st.showProgress then
        match st.startTimestamp with
        | some ts => { st with progress := progressPct now ts st.estimatedSeconds }
        | none => st
      else st

/-- The state of a freshly mounted controller: all useState cells at their
initial values, data possibly primed by getCachedStatus, a live fetch in
flight (refetchOnMount is "always") and no fetch completed since mount.
The storedStartTs slot survives from the previous session. -/
def initState (cached : Option DbVmStatusResponse)
    (stored : Option (Option Int)) : GateState :=
  { data := cached, isFetching := true, isFetchedAfterMount := false,
    isStarting := false, isStopping := false, isSuspendingLocal := false,
    progress := 0, startTimestamp := none, startError := none,
    storedStartTs := stored }

/-- The states the controller can actually reach from some mount. -/
inductive Reachable : GateState → Prop where
  | init (cached : Option DbVmStatusResponse) (stored : Option (Option Int)) :
      Reachable (initState cached stored)
  | step {st : GateState} (e : Event) : Reachable st → Reachable (applyEvent st e)

/-- In every reachable state the optimistic suspend flag coincides with
the stopping flag: every site of the component sets or clears the two
together. -/
theorem suspendLocal_eq_stopping {st : GateState} (h : Reachable st) :
    st.isSuspendingLocal = st.isStopping := by
  induction h with
  | init cached stored => rfl
  | step e hst ih =>
    cases e <;>
      simp only [applyEvent, persistStartTs, applyStatusEffects] <;>
      repeat' first
        | rfl
        | exact ih
        | split <;> simp_all

/-- persistStartTs only writes the storage slot. -/
theorem persistStartTs_progress (s : GateState) :
    (persistStartTs s).progress = s.progress := by
  unfold persistStartTs
  split <;> first | rfl | split <;> rfl

/-- persistStartTs leaves the start timestamp untouched. -/
theorem persistStartTs_startTimestamp (s : GateState) :
    (persistStartTs s).startTimestamp = s.startTimestamp := by
  unfold persistStartTs
  split <;> first | rfl | split <;> rfl

/-- A resolved fetch reporting running clears every transition cell,
empties the storage slot and completes the progress value. -/
theorem applyEvent_fetchResolve_running (st : GateState) (d : DbVmStatusResponse)
    (hd : d.status = "running") :
    (applyEvent st (Event.fetchResolve d)).isStarting = false
    ∧ (applyEvent st (Event.fetchResolve d)).isStopping = false
    ∧ (applyEvent st (Event.fetchResolve d)).isSuspendingLocal = false
    ∧ (applyEvent st (Event.fetchResolve d)).storedStartTs = none
    ∧ (applyEvent st (Event.fetchResolve d)).progress = 100 := by
  simp [applyEvent, applyStatusEffects, GateState.status, hd]

/-- The status effects never touch the start timestamp cell. -/
theorem applyStatusEffects_startTimestamp (s : GateState) :
    (applyStatusEffects s).startTimestamp = s.startTimestamp := by
  unfold applyStatusEffects
  split <;> dsimp only <;> split <;> rfl

/-- Unless the snapshot reports running, the status effects leave the
progress cell untouched. -/
theorem applyStatusEffects_progress_of_not_running (s : GateState)
    (h : s.status ≠ "running") : (applyStatusEffects s).progress = s.progress := by
  unfold applyStatusEffects
  have hb : (s.status == "running") = false := by
    simpa using h
  rw [hb]
  simp only [Bool.false_eq_true, if_false]
  split <;> rfl

end DbVm

namespace DbVm

/-- A demonstration snapshot reporting running. -/
def runningSnap : DbVmStatusResponse :=
  { status := "running", rawStatus := "RUNNING", checkedAt := 0, config := none }

/-- A demonstration snapshot reporting starting. -/
def startingSnap : DbVmStatusResponse :=
  { status := "starting", rawStatus := "STAGING", checkedAt := 0, config := none }

/-- A demonstration snapshot reporting stopped. -/
def stoppedSnap : DbVmStatusResponse :=
  { status := "stopped", rawStatus := "TERMINATED", checkedAt := 0, config := none }

/-- C1: in every reachable controller state the gate decision agrees with
the pure disjunction of the specification, shouldGate = isValidating OR
status not running OR starting OR stopping; the blocking screen is
rendered exactly when the bypass does not apply and that disjunction
holds; isValidating holds exactly when a fetch is in flight or no fetch
has completed since mount; and a state whose cached data says running
while no live fetch has completed this mount still gates. -/
theorem shouldGate_matches_spec (st : GateState) (h : Reachable st) :
    st.shouldGate = st.shouldGateSpec
    ∧ (∀ g : Bool, st.rendersBlocking g = true ↔ g = false ∧ st.shouldGateSpec = true)
    ∧ st.isValidating = (st.isFetching || !st.isFetchedAfterMount)
    ∧ (∀ d : DbVmStatusResponse, st.data = some d → d.status = "running" →
        st.isFetchedAfterMount = false → st.shouldGate = true) := by
  have hinv := suspendLocal_eq_stopping h
  have hgate : st.shouldGate = st.shouldGateSpec := by
    simp only [GateState.shouldGate, GateState.shouldGateSpec, GateState.isSuspending, hinv]
    by_cases hs : st.status = "suspending"
    · rw [hs]
      simp
    · have hb : (st.status == "suspending") = false := by simpa using hs
      rw [hb]
      simp [Bool.or_assoc]
  refine ⟨hgate, ?_, ?_, ?_⟩
  · intro g
    cases g <;> simp [GateState.rendersBlocking, hgate]
  · simp only [GateState.isValidating, GateState.isLoading]
    cases hf : st.isFetching <;> simp
  · intro d _ _ hm
    simp [GateState.shouldGate, GateState.isValidating, hm]

/-- Witness for C1 at a mount state primed with a cached running snapshot:
the gate is still shown. -/
theorem shouldGate_matches_spec_witness :
    (initState (some runningSnap) none).shouldGate = true := by
  have h := shouldGate_matches_spec (initState (some runningSnap) none)
    (Reachable.init (some runningSnap) none)
  exact h.2.2.2 runningSnap rfl rfl rfl

/-- A demonstration running snapshot taken at epoch millisecond 0, used
stale. -/
def staleRunningSnap : DbVmStatusResponse :=
  { status := "running", rawStatus := "RUNNING", checkedAt := 0, config := none }

/-- C2: the persisted snapshot is returned exactly when it is
non-running or fresh enough; a running snapshot older than 60 seconds is
treated as absent; and no state can drop the gate before a live fetch
completes after mount. -/
theorem getCachedStatus_freshness (parsed : DbVmStatusResponse) (now : Int) :
    (getCachedStatus none (some (Except.ok parsed)) now = some parsed ↔
      (parsed.status ≠ "running" ∨ now - parsed.checkedAt ≤ MAX_CACHE_AGE_MS))
    ∧ (parsed.status = "running" → now - parsed.checkedAt > MAX_CACHE_AGE_MS →
        getCachedStatus none (some (Except.ok parsed)) now = none)
    ∧ (∀ st : GateState, st.isFetchedAfterMount = false → st.shouldGate = true) := by
  refine ⟨?_, ?_, ?_⟩
  · simp only [getCachedStatus]
    by_cases hc : parsed.status = "running" ∧ now - parsed.checkedAt > MAX_CACHE_AGE_MS
    · rw [if_pos hc]
      constructor
      · intro hcontra
        exact absurd hcontra (by simp)
      · rintro (hne | hle)
        · exact absurd hc.1 hne
        · exact absurd hc.2 (not_lt.mpr hle)
    · rw [if_neg hc]
      constructor
      · intro _
        by_cases hr : parsed.status = "running"
        · push_neg at hc
          exact Or.inr (hc hr)
        · exact Or.inl hr
      · intro _
        rfl
  · intro h1 h2
    simp only [getCachedStatus]
    rw [if_pos ⟨h1, h2⟩]
  · intro st hm
    simp [GateState.shouldGate, GateState.isValidating, hm]

/-- Witness for C2: a running snapshot checked at epoch 0 read 100 seconds
later is discarded. -/
theorem getCachedStatus_freshness_witness :
    getCachedStatus none (some (Except.ok staleRunningSnap)) 100000 = none :=
  (getCachedStatus_freshness staleRunningSnap 100000).2.1 rfl (by decide)

/-- Counterexample to C3 as stated: with no last-known status the
refetchInterval callback returns false (polling off), not the 10 second
interval the claim requires for an unknown status. -/
theorem refetchInterval_unknown_counterexample :
    refetchInterval none = none ∧ ¬ refetchInterval none = some 10000 := by
  exact ⟨rfl, by decide⟩

/-- C3 amended: the poll interval is 10 seconds exactly when a last-known
status exists, is non-empty and differs from running; it is switched off
when the status is running or no status is known yet. -/
theorem refetchInterval_amended (s : Option String) :
    (refetchInterval s = some 10000 ↔ ∃ v, s = some v ∧ v ≠ "" ∧ v ≠ "running")
    ∧ (refetchInterval s = none ↔ s = none ∨ s = some "" ∨ s = some "running") := by
  cases s with
  | none => simp [refetchInterval]
  | some v =>
    by_cases h1 : v = "" <;> by_cases h2 : v = "running" <;>
      simp [refetchInterval, h1, h2]

/-- Witness for the amended C3: a stopped status polls, a running status
does not. -/
theorem refetchInterval_amended_witness :
    refetchInterval (some "stopped") = some 10000 ∧
      refetchInterval (some "running") = none :=
  ⟨(refetchInterval_amended (some "stopped")).1.mpr
      ⟨"stopped", rfl, by decide, by decide⟩,
   (refetchInterval_amended (some "running")).2.mpr (Or.inr (Or.inr rfl))⟩

/-- C4: when the server reports starting and no locally recorded start
timestamp exists, the gate is shown, the starting label is displayed once
the live check has settled and no stop transition is pending (the display
condition ORs the local flag with the server signal), yet no progress bar
is rendered, and no event other than a user start click creates a start
timestamp. -/
theorem server_starting_without_local_timestamp (st : GateState)
    (hs : st.status = "starting") (hts : st.startTimestamp = none) :
    st.shouldGate = true
    ∧ st.showProgress = false
    ∧ (st.isValidating = false → st.isStopping = false →
        st.isSuspendingLocal = false → st.headline = "Starting...")
    ∧ (∀ st2 : GateState, st2.startTimestamp = none → st2.showProgress = false)
    ∧ (st.storedStartTs = none → applyEvent st Event.mountRestore = st)
    ∧ (∀ e : Event, st.storedStartTs = none → (∀ n, e ≠ Event.startClick n) →
        (applyEvent st e).startTimestamp = none) := by
  refine ⟨?_, ?_, ?_, ?_, ?_, ?_⟩
  · simp [GateState.shouldGate, hs]
  · simp [GateState.showProgress, hts]
  · intro hv hstop hsl
    simp [GateState.headline, GateState.isSuspending, GateState.isStartingFromServer,
      hs, hv, hstop, hsl]
  · intro st2 h2
    simp [GateState.showProgress, h2]
  · intro hnone
    simp [applyEvent, hnone]
  · intro e hnone hnc
    cases e with
    | fetchStart => exact hts
    | fetchResolve d => rw [applyEvent, applyStatusEffects_startTimestamp]; exact hts
    | fetchReject => exact hts
    | mountRestore => simp [applyEvent, hnone, hts]
    | startClick n => exact absurd rfl (hnc n)
    | startOk => exact hts
    | startFail => exact hts
    | stopClick => exact hts
    | stopOk => exact hts
    | stopFail => exact hts
    | tick now =>
      simp only [applyEvent, GateState.showProgress, hts]
      simp [hts]

/-- A concrete settled state in which only the server reports starting. -/
def serverStartingState : GateState :=
  { data := some startingSnap, isFetching := false, isFetchedAfterMount := true,
    isStarting := false, isStopping := false, isSuspendingLocal := false,
    progress := 0, startTimestamp := none, startError := none, storedStartTs := none }

/-- Witness for C4: the settled server-starting state shows the starting
label and no progress bar. -/
theorem server_starting_without_local_timestamp_witness :
    serverStartingState.headline = "Starting..."
    ∧ serverStartingState.showProgress = false := by
  have h := server_starting_without_local_timestamp serverStartingState rfl rfl
  exact ⟨h.2.2.1 rfl rfl rfl, h.2.1⟩

/-- C5: the displayed progress at elapsed time t is
min 99 (t / (e * 1000) * 100), never exceeds 99, is monotone in the
elapsed time, the tick event writes exactly this value, and the only step
that ever sets progress to 100 is a resolved fetch reporting running. -/
theorem progress_estimator_correct (t1 t2 ts : Int) (e : ℚ) (he : 0 < e) :
    progressPct (ts + t1) ts e = min 99 ((t1 : ℚ) / (e * 1000) * 100)
    ∧ progressPct (ts + t1) ts e ≤ 99
    ∧ (t1 ≤ t2 → progressPct (ts + t1) ts e ≤ progressPct (ts + t2) ts e)
    ∧ (∀ (st : GateState) (now ts0 : Int), st.showProgress = true →
        st.startTimestamp = some ts0 →
        (applyEvent st (Event.tick now)).progress =
          progressPct now ts0 st.estimatedSeconds)
    ∧ (∀ (st : GateState) (ev : Event), (applyEvent st ev).progress = 100 →
        st.progress = 100 ∨ ∃ d, ev = Event.fetchResolve d ∧ d.status = "running") := by
  have hcancel : ∀ u : Int, ts + u - ts = u := fun u => by omega
  refine ⟨?_, ?_, ?_, ?_, ?_⟩
  · rw [progressPct, hcancel]
  · exact min_le_left _ _
  · intro hle
    rw [progressPct, progressPct, hcancel, hcancel]
    have h1000 : (0 : ℚ) < e * 1000 := by positivity
    have hc : (t1 : ℚ) ≤ (t2 : ℚ) := by exact_mod_cast hle
    refine min_le_min le_rfl ?_
    have hdiv : (t1 : ℚ) / (e * 1000) ≤ (t2 : ℚ) / (e * 1000) := by
      gcongr
    exact mul_le_mul_of_nonneg_right hdiv (by norm_num)
  · intro st now ts0 hsp hts0
    simp [applyEvent, hsp, hts0]
  · intro st ev h100
    cases ev with
    | fetchStart => exact Or.inl h100
    | fetchResolve d =>
      by_cases hd : d.status = "running"
      · exact Or.inr ⟨d, rfl, hd⟩
      · left
        rw [applyEvent] at h100
        rw [applyStatusEffects_progress_of_not_running] at h100
        · exact h100
        · simpa [GateState.status] using hd
    | fetchReject => exact Or.inl h100
    | mountRestore =>
      left
      rw [applyEvent] at h100
      revert h100
      match hst : st.storedStartTs with
      | some (some v) => rw [persistStartTs_progress]; exact id
      | some none => exact id
      | none => exact id
    | startClick n =>
      rw [applyEvent, persistStartTs_progress] at h100
      norm_num at h100
    | startOk => exact Or.inl h100
    | startFail => exact Or.inl h100
    | stopClick => exact Or.inl h100
    | stopOk => exact Or.inl h100
    | stopFail => exact Or.inl h100
    | tick now =>
      by_cases hsp : st.showProgress = true
      · rcases hv : st.startTimestamp with _ | v
        · exfalso
          simp [GateState.showProgress, hv] at hsp
        · exfalso
          have hred : (applyEvent st (Event.tick now)).progress =
              progressPct now v st.estimatedSeconds := by
            simp [applyEvent, hsp, hv]
          rw [hred] at h100
          have hle : progressPct now v st.estimatedSeconds ≤ 99 := min_le_left _ _
          rw [h100] at hle
          norm_num at hle
      · left
        have hsp2 : st.showProgress = false := by simpa using hsp
        simpa [applyEvent, hsp2] using h100

/-- Witness for C5: at 45 of an estimated 90 seconds the formula yields
50 percent, below the 99 ceiling. -/
theorem progress_estimator_correct_witness :
    progressPct (0 + 45000) 0 90 = min 99 ((45000 : ℚ) / (90 * 1000) * 100)
    ∧ progressPct (0 + 45000) 0 90 ≤ 99 := by
  have h := progress_estimator_correct 45000 45000 0 90 (by norm_num)
  exact ⟨h.1, h.2.1⟩

/-- A mounted controller in which the user has just clicked stop. -/
def stoppingDemoState : GateState :=
  applyEvent (initState (some runningSnap) none) Event.stopClick

/-- Counterexample to C6 as stated: after a failed stop request both
flags are cleared, but the user-visible error string stays empty, so the
failure is not surfaced as the claim requires. -/
theorem stop_failure_counterexample :
    (applyEvent stoppingDemoState Event.stopFail).isStopping = false
    ∧ (applyEvent stoppingDemoState Event.stopFail).isSuspendingLocal = false
    ∧ (applyEvent stoppingDemoState Event.stopFail).startError = none :=
  ⟨rfl, rfl, rfl⟩

/-- C6 amended: a failed stop request clears both the request-in-flight
and the optimistic suspend flags, leaving the control retriable, but it
sets no user-visible error string: startError is untouched and the
failure is only logged to the console. -/
theorem stop_failure_recovery (st : GateState) :
    (applyEvent st Event.stopFail).isStopping = false
    ∧ (applyEvent st Event.stopFail).isSuspendingLocal = false
    ∧ (applyEvent st Event.stopFail).startError = st.startError
    ∧ (st.isStarting = false → st.status ≠ "starting" → st.status ≠ "suspending" →
        GateState.startDisabledV1 (applyEvent st Event.stopFail) = false) := by
  refine ⟨rfl, rfl, rfl, ?_⟩
  intro h1 h2 h3
  have hb2 : (st.status == "starting") = false := by simpa using h2
  have hb3 : (st.status == "suspending") = false := by simpa using h3
  have hstat : (applyEvent st Event.stopFail).status = st.status := rfl
  have e1 : (applyEvent st Event.stopFail).isStarting = st.isStarting := rfl
  have e2 : (applyEvent st Event.stopFail).isStopping = false := rfl
  have e3 : (applyEvent st Event.stopFail).isSuspendingLocal = false := rfl
  rw [GateState.startDisabledV1, GateState.isStartingFromServer, GateState.isSuspending,
    e1, e2, e3, hstat, h1, hb2, hb3]
  rfl

/-- Witness for the amended C6 at the concrete stopping state. -/
theorem stop_failure_recovery_witness :
    (applyEvent stoppingDemoState Event.stopFail).isStopping = false
    ∧ GateState.startDisabledV1 (applyEvent stoppingDemoState Event.stopFail) = false := by
  have h := stop_failure_recovery stoppingDemoState
  exact ⟨h.1, h.2.2.2 rfl (by decide) (by decide)⟩

/-- C7: a rejected start request ends with the starting flag false and a
populated error message, and, provided the server itself reports none of
starting, stopping or suspending, the disabled predicate of the start
control evaluates to false again; the rejection is absorbed by the catch
so it never escapes the handler. -/
theorem start_failure_recovery (st : GateState) :
    (applyEvent st Event.startFail).isStarting = false
    ∧ (applyEvent st Event.startFail).startError =
        some "Unable to start the database VM. Please try again."
    ∧ (st.status ≠ "starting" → st.status ≠ "suspending" →
        st.isStopping = false → st.isSuspendingLocal = false →
        GateState.startDisabledV1 (applyEvent st Event.startFail) = false) := by
  refine ⟨rfl, rfl, ?_⟩
  intro h2 h3 hstop hsl
  have hb2 : (st.status == "starting") = false := by simpa using h2
  have hb3 : (st.status == "suspending") = false := by simpa using h3
  have hstat : (applyEvent st Event.startFail).status = st.status := rfl
  have e1 : (applyEvent st Event.startFail).isStarting = false := rfl
  have e2 : (applyEvent st Event.startFail).isStopping = st.isStopping := rfl
  have e3 : (applyEvent st Event.startFail).isSuspendingLocal = st.isSuspendingLocal := rfl
  rw [GateState.startDisabledV1, GateState.isStartingFromServer, GateState.isSuspending,
    e1, e2, e3, hstat, hstop, hsl, hb2, hb3]
  rfl

/-- Witness for C7 with the server reporting stopped. -/
theorem start_failure_recovery_witness :
    (applyEvent (initState (some stoppedSnap) none) Event.startFail).isStarting = false
    ∧ GateState.startDisabledV1
        (applyEvent (initState (some stoppedSnap) none) Event.startFail) = false := by
  have h := start_failure_recovery (initState (some stoppedSnap) none)
  exact ⟨h.1, h.2.2 (by decide) (by decide) rfl rfl⟩

/-- C8: a resolved fetch reporting running clears the starting, stopping
and optimistic suspend flags, removes the persisted start timestamp and
completes the progress bar; with the storage slot empty the mount restore
effect is the identity, so a later mount starts with the starting flag
down and no progress bar. -/
theorem running_clears_transition_state (st : GateState) (d : DbVmStatusResponse)
    (hd : d.status = "running") :
    (applyEvent st (Event.fetchResolve d)).isStarting = false
    ∧ (applyEvent st (Event.fetchResolve d)).isStopping = false
    ∧ (applyEvent st (Event.fetchResolve d)).isSuspendingLocal = false
    ∧ (applyEvent st (Event.fetchResolve d)).storedStartTs = none
    ∧ (applyEvent st (Event.fetchResolve d)).progress = 100
    ∧ (∀ st2 : GateState, st2.storedStartTs = none →
        applyEvent st2 Event.mountRestore = st2)
    ∧ (∀ cached : Option DbVmStatusResponse,
        (applyEvent (initState cached none) Event.mountRestore).isStarting = false
        ∧ (applyEvent (initState cached none) Event.mountRestore).showProgress = false) := by
  refine ⟨?_, ?_, ?_, ?_, ?_, ?_, ?_⟩
  · exact (applyEvent_fetchResolve_running st d hd).1
  · exact (applyEvent_fetchResolve_running st d hd).2.1
  · exact (applyEvent_fetchResolve_running st d hd).2.2.1
  · exact (applyEvent_fetchResolve_running st d hd).2.2.2.1
  · exact (applyEvent_fetchResolve_running st d hd).2.2.2.2
  · intro st2 h2
    simp [applyEvent, h2]
  · intro cached
    constructor
    · simp [applyEvent, initState]
    · simp [applyEvent, initState, GateState.showProgress]

/-- Witness for C8: a running snapshot arriving at the stopping demo
state clears every transition flag and the storage slot. -/
theorem running_clears_transition_state_witness :
    (applyEvent stoppingDemoState (Event.fetchResolve runningSnap)).isStopping = false
    ∧ (applyEvent stoppingDemoState (Event.fetchResolve runningSnap)).storedStartTs = none := by
  have h := running_clears_transition_state stoppingDemoState runningSnap rfl
  exact ⟨h.2.1, h.2.2.2.1⟩

/-- C9: a stored status string on which JSON.parse throws is treated as an
absent cache entry, and a stored start-timestamp string whose numeric
conversion is NaN leaves the restore effect inert, so a mount with such a
slot keeps the starting flag down and the timestamp empty. -/
theorem malformed_persisted_state (msg : String) (now : Int) (st : GateState) :
    getCachedStatus none (some (Except.error msg)) now = none
    ∧ (st.storedStartTs = some none → applyEvent st Event.mountRestore = st)
    ∧ (∀ cached : Option DbVmStatusResponse,
        (applyEvent (initState cached (some none)) Event.mountRestore).isStarting = false
        ∧ (applyEvent (initState cached (some none)) Event.mountRestore).startTimestamp
            = none) := by
  refine ⟨rfl, ?_, ?_⟩
  · intro hnan
    simp [applyEvent, hnan]
  · intro cached
    exact ⟨rfl, rfl⟩

/-- Witness for C9 at a concrete malformed store. -/
theorem malformed_persisted_state_witness :
    getCachedStatus none (some (Except.error "SyntaxError")) 0 = none
    ∧ applyEvent (initState none (some none)) Event.mountRestore
        = initState none (some none) := by
  have h := malformed_persisted_state "SyntaxError" 0 (initState none (some none))
  exact ⟨h.1, h.2.1 rfl⟩

/-- C10: the effective estimated start duration is the configured
estimatedStartSeconds when the snapshot carries one and 90 seconds when
the snapshot or its config omits it or no snapshot exists. -/
theorem estimatedSeconds_default (st : GateState) (d : DbVmStatusResponse)
    (c : VmConfig) (q : ℚ) :
    (st.data = none → st.estimatedSeconds = 90)
    ∧ (st.data = some d → d.config = none → st.estimatedSeconds = 90)
    ∧ (st.data = some d → d.config = some c → c.estimatedStartSeconds = none →
        st.estimatedSeconds = 90)
    ∧ (st.data = some d → d.config = some c → c.estimatedStartSeconds = some q →
        st.estimatedSeconds = q) := by
  refine ⟨?_, ?_, ?_, ?_⟩
  · intro h
    simp [GateState.estimatedSeconds, h]
  · intro h hc
    simp [GateState.estimatedSeconds, h, hc]
  · intro h hc he
    simp [GateState.estimatedSeconds, h, hc, he]
  · intro h hc he
    simp [GateState.estimatedSeconds, h, hc, he]

/-- A demonstration snapshot carrying a configured estimate of
120 seconds. -/
def configuredSnap : DbVmStatusResponse :=
  { status := "stopped", rawStatus := "TERMINATED", checkedAt := 0,
    config := some { project := "p", zone := "z", name := "n",
                     estimatedStartSeconds := some 120 } }

/-- Witness for C10: no snapshot gives the 90 second default, a
configured snapshot gives its own estimate. -/
theorem estimatedSeconds_default_witness :
    (initState none none).estimatedSeconds = 90
    ∧ (initState (some configuredSnap) none).estimatedSeconds = 120 := by
  constructor
  · exact (estimatedSeconds_default (initState none none) runningSnap
      { project := "p", zone := "z", name := "n", estimatedStartSeconds := none } 90).1 rfl
  · exact (estimatedSeconds_default (initState (some configuredSnap) none) configuredSnap
      { project := "p", zone := "z", name := "n", estimatedStartSeconds := some 120 }
      120).2.2.2 rfl rfl rfl

end DbVm


